import Mathlib

/-!
Shallow embedding of `seegpy/io/read.py`: the vendor binary reader
(`read_trc`), the multi-backend matrix reader (`read_pramat`), and the
trigger-extraction steps that `read_pramat` performs on the raw trigger
line.  Machine matrices are lists of rows, numpy boolean-mask indexing is
`maskSelect`, and Python exceptions are modelled by the `ErrKind` type
(every bare `assert` raises an `AssertionError`, so it maps to
`ErrKind.assertionError`).
-/

/-- Severity of a log record emitted through the module-level logger. -/
inductive LogLevel
  | error
  | warning
  deriving DecidableEq, Repr

/-- One record sent to the `seegpy` logger. -/
structure LogEntry where
  level : LogLevel
  msg : String
  deriving DecidableEq, Repr

/-- Kinds of Python exceptions the embedded code can raise.  A failing
`assert` statement raises `assertionError`; `oserror` stands for the
`OSError`/`FileNotFoundError` family raised by `h5py.File` on a missing
raw file; `propagatedError` is an uncaught exception escaping the third
header backend; `valueError` models `np.stack` failures and
`indexError` models numpy fancy-indexing shape failures. -/
inductive ErrKind
  | assertionError
  | fileNotFoundError
  | notADirectoryError
  | oserror
  | valueError
  | indexError
  | propagatedError
  deriving DecidableEq, Repr

/-- The canonical tuple `(sf, raw, seeg_chan, trig_event, trig_time)`
returned by both readers. -/
structure Recording where
  sf : ℚ
  raw : List (List ℚ)
  seeg_chan : List String
  trig_event : List Int
  trig_time : List ℚ
  deriving DecidableEq, Repr

instance {ε α : Type} [DecidableEq ε] [DecidableEq α] :
    DecidableEq (Except ε α) := fun a b =>
  match a, b with
  | .error e, .error f =>
    if h : e = f then isTrue (congrArg Except.error h)
    else isFalse (fun hh => h (Except.error.inj hh))
  | .ok x, .ok y =>
    if h : x = y then isTrue (congrArg Except.ok h)
    else isFalse (fun hh => h (Except.ok.inj hh))
  | .error _, .ok _ => isFalse (fun hh => Except.noConfusion hh)
  | .ok _, .error _ => isFalse (fun hh => Except.noConfusion hh)

/-- numpy boolean-mask indexing `np.array(xs)[mask]`: keep the entries at
mask-true positions, in order. -/
def maskSelect {α : Type} (xs : List α) (mask : List Bool) : List α :=
  ((xs.zip mask).filter (fun p => p.2)).map Prod.fst

/-- `np.where(trig_event[1::] - trig_event[:-1])[0] + 1`: the positions
whose value differs from the previous sample, shifted to index into the
original array (index 0 is never produced). -/
def firstOnly (trig : List Int) : List Nat :=
  ((List.range (trig.length - 1)).filter
    (fun i => trig.getD (i + 1) 0 - trig.getD i 0 != 0)).map (fun i => i + 1)

/-- The trigger-extraction steps of `read_pramat` (lines 243-249 of
`read.py`): keep leading edges only, then drop zero codes, pairing each
surviving code with its original timestamp. -/
def extractTriggers (trig : List Int) (times : List ℚ) : List Int × List ℚ :=
  let idx := firstOnly trig
  let ev := idx.map (fun i => trig.getD i 0)
  let tm := idx.map (fun i => times.getD i 0)
  let kept := (ev.zip tm).filter (fun p => p.1 != 0)
  (kept.map Prod.fst, kept.map Prod.snd)

/-- Python `s.replace(' ', '').strip().upper()` as performed by
`read_contacts_trc` on each channel name (character-level, so that the
kernel can evaluate it). -/
def pyNormalizeName (s : String) : String :=
  let noSpace := s.data.filter (fun c => c != ' ')
  let stripped := ((noSpace.dropWhile Char.isWhitespace).reverse.dropWhile
    Char.isWhitespace).reverse
  String.mk (stripped.map Char.toUpper)

/-- Python `s.upper()` (character-level). -/
def pyUpper (s : String) : String :=
  String.mk (s.data.map Char.toUpper)

/-- What the neo Micromed backend exposes to `read_trc`: the sampling
rate, one `(name, units, samples)` triple per analog signal, and the
single event stream `seg.events[0]` (integer-coded labels with their own
time axis). -/
structure TrcContainer where
  sf : ℚ
  sigs : List (String × String × List ℚ)
  eventLabels : List Int
  eventTimes : List ℚ
  deriving DecidableEq, Repr

/-- The channel names of a TRC container after `read_contacts_trc`
normalization. -/
def trcNames (ctr : TrcContainer) : List String :=
  ctr.sigs.map (fun s => pyNormalizeName s.1)

/-- The unit strings of a TRC container, parallel to `trcNames`. -/
def trcUnits (ctr : TrcContainer) : List String :=
  ctr.sigs.map (fun s => s.2.1)

/-- `np.stack` requires all stacked 1-D vectors to have the same length. -/
def sameLengths (rows : List (List ℚ)) : Bool :=
  match rows with
  | [] => true
  | r :: rest => rest.all (fun x => x.length == r.length)

/-- `read_trc` (lines 87-144 of `read.py`).  `isfile` is the result of
`op.isfile(bloc)`; `classify` is the external `detect_seeg_contacts`
capability, called with the normalized names, the units and the
`seeg_unit='uV'` hint.  The event labels and times are returned as read
from `seg.events[0]`.  The branch conditions reflect the implicit numpy
failure modes: boolean-mask indexing needs a mask of matching length
(`indexError`) and `np.stack` rejects an empty or ragged list
(`valueError`). -/
def read_trc (isfile : Bool)
    (classify : List String → List String → String → List Bool)
    (ctr : TrcContainer) : Except ErrKind Recording :=
  if isfile then
    let ch_names := trcNames ctr
    let is_seeg := classify ch_names (trcUnits ctr) "uV"
    if is_seeg.length = ch_names.length then
      let seeg_chan := maskSelect ch_names is_seeg
      let seeg_nb := maskSelect (List.range ch_names.length) is_seeg
      let raw := seeg_nb.map (fun c => (ctr.sigs.getD c ("", "", [])).2.2)
      if raw.isEmpty then Except.error ErrKind.valueError
      else if sameLengths raw then
        Except.ok ⟨ctr.sf, raw, seeg_chan, ctr.eventLabels, ctr.eventTimes⟩
      else Except.error ErrKind.valueError
    else Except.error ErrKind.indexError
  else Except.error ErrKind.assertionError

/-- Outcome of one header-decoding backend attempt in `read_pramat`.
Each backend executes `cn = ...` and then `ct = ...`; an exception can
strike before `cn` is assigned (`failEarly`), between the two assignments
(`failMid`, leaving `cn` updated and `ct` untouched), or not at all
(`success`). -/
inductive BackendOutcome
  | failEarly
  | failMid (cn : List String)
  | success (cn ct : List String)
  deriving DecidableEq, Repr

/-- Effect of a backend attempt on the `(cn, ct)` state. -/
def stepBackend (st : List String × List String) (o : BackendOutcome) :
    List String × List String :=
  match o with
  | .failEarly => st
  | .failMid cn => (cn, st.2)
  | .success cn ct => (cn, ct)

/-- Whether the backend attempt raised (and was caught and logged). -/
def BackendOutcome.failed : BackendOutcome → Bool
  | .success _ _ => false
  | _ => true

/-- Log record of the caught HDF5 backend failure. -/
def hdf5FailMsg : LogEntry :=
  ⟨.error, "Extraction failed with HDF5. Trying with scipy"⟩

/-- Log record of the caught scipy backend failure. -/
def scipyFailMsg : LogEntry :=
  ⟨.error, "Extraction failed with scipy. Trying with mat73"⟩

/-- Log record of the multiple-raw-file narrowing (note: emitted through
`logger.error`). -/
def multiFileMsg : LogEntry :=
  ⟨.error, "Multiple matlab files detected. Forcing iEEG.mat"⟩

/-- The three `assert` statements that follow the backend chain:
`assert len(cn)`, `assert len(ct)`, `assert len(cn) == len(ct)`. -/
def checkAsserts (cn ct : List String) :
    Except ErrKind (List String × List String) :=
  if cn.isEmpty then Except.error ErrKind.assertionError
  else if ct.isEmpty then Except.error ErrKind.assertionError
  else if cn.length = ct.length then Except.ok (cn, ct)
  else Except.error ErrKind.assertionError

/-- The header-decoding chain of `read_pramat` (lines 191-229): HDF5 in a
`try/except` that logs, then scipy guarded by
`(not len(cn)) and (not len(ct))` in a `try/except` that logs, then mat73
under the same guard but with no `try/except` (its exception propagates),
followed by the three asserts. -/
def decodeHeader (h5 scipy : BackendOutcome)
    (m73 : Except Unit (List String × List String)) :
    Except ErrKind (List String × List String) × List LogEntry :=
  let st1 := stepBackend ([], []) h5
  let log1 := if h5.failed then [hdf5FailMsg] else []
  if st1.1.isEmpty && st1.2.isEmpty then
    let st2 := stepBackend st1 scipy
    let log2 := log1 ++ (if scipy.failed then [scipyFailMsg] else [])
    if st2.1.isEmpty && st2.2.isEmpty then
      match m73 with
      | .error _ => (Except.error ErrKind.propagatedError, log2)
      | .ok (cn, ct) => (checkAsserts cn ct, log2)
    else (checkAsserts st2.1 st2.2, log2)
  else (checkAsserts st1.1 st1.2, log1)

/-- `np.round` (round half to even), expressed on the numerator and
denominator so the kernel can evaluate it. -/
def npRound (q : ℚ) : Int :=
  let d : Int := (q.den : Int)
  let f := Int.fdiv q.num d
  let r := q.num - f * d
  if 2 * r < d then f
  else if d < 2 * r then f + 1
  else if f % 2 = 0 then f else f + 1

/-- What the raw-data HDF5 file (`iEEG.mat` style) exposes: `srate`,
the `time` vector, and the `raw` matrix whose last row is the trigger
line. -/
structure RawContent where
  srate : ℚ
  time : List ℚ
  raw : List (List ℚ)
  deriving DecidableEq, Repr

/-- The inputs `read_pramat` consumes from the filesystem: whether
`mat_root` is a directory, the listing of `alignedData`, the contents of
`rawData/amplifierData` (file name paired with what `h5py` would decode
from it), and the outcome each header backend would produce on the header
file. -/
structure MatRoot where
  isDir : Bool
  filesHead : List String
  rawDir : List (String × RawContent)
  h5Outcome : BackendOutcome
  scipyOutcome : BackendOutcome
  mat73Outcome : Except Unit (List String × List String)

/-- Opening a file of the raw-data subdirectory by name. -/
def lookupRaw (d : List (String × RawContent)) (name : String) :
    Option RawContent :=
  (d.find? (fun p => p.1 == name)).map Prod.snd

/-- Resolution of the raw-data file (lines 180-187): if the listing has
more than one entry it is replaced by `['iEEG.mat']` with an error-level
log record, then `assert len(files_raw) == 1`. -/
def resolveRawFile (files : List String) :
    Except ErrKind String × List LogEntry :=
  let p := if files.length > 1 then (["iEEG.mat"], [multiFileMsg])
           else (files, ([] : List LogEntry))
  if p.1.length = 1 then (Except.ok (p.1.getD 0 ""), p.2)
  else (Except.error ErrKind.assertionError, p.2)

/-- The tail of `read_pramat` after the header has been decoded into
`(cn, ct)` (lines 226-255): uppercase the names, build the sEEG mask by
exact comparison with `'SEEG'`, open the raw file, round the last row,
extract the triggers, and boolean-mask the raw matrix (numpy requires the
mask length to match the row count). -/
def pramatCore (root : MatRoot) (rawName : String) (cn ct : List String) :
    Except ErrKind Recording :=
  let ch_names := cn.map pyUpper
  let is_seeg := ct.map (fun t => t == "SEEG")
  let seeg_chan := maskSelect ch_names is_seeg
  match lookupRaw root.rawDir rawName with
  | none => Except.error ErrKind.oserror
  | some content =>
    match content.raw.getLast? with
    | none => Except.error ErrKind.indexError
    | some trigRow =>
      let p := extractTriggers (trigRow.map npRound) content.time
      if content.raw.length = is_seeg.length then
        Except.ok ⟨content.srate, maskSelect content.raw is_seeg,
          seeg_chan, p.1, p.2⟩
      else Except.error ErrKind.indexError

/-- `read_pramat` after the raw file name has been resolved: run the
header chain, then `pramatCore`; log records accumulate in program
order. -/
def pramatAfter (root : MatRoot) (rawName : String) (rlog : List LogEntry) :
    Except ErrKind Recording × List LogEntry :=
  match decodeHeader root.h5Outcome root.scipyOutcome root.mat73Outcome with
  | (Except.ok (cn, ct), hlog) => (pramatCore root rawName cn ct, rlog ++ hlog)
  | (Except.error e, hlog) => (Except.error e, rlog ++ hlog)

/-- `read_pramat` (lines 147-255): `assert op.isdir(mat_root)`, then
`assert len(files_head) == 1`, then raw-file resolution, header chain and
core. -/
def read_pramat (root : MatRoot) : Except ErrKind Recording × List LogEntry :=
  if root.isDir then
    if root.filesHead.length = 1 then
      match resolveRawFile (root.rawDir.map Prod.fst) with
      | (Except.ok rawName, rlog) => pramatAfter root rawName rlog
      | (Except.error e, rlog) => (Except.error e, rlog)
    else (Except.error ErrKind.assertionError, [])
  else (Except.error ErrKind.assertionError, [])

/-! ### Concrete fixtures used by the witnesses and counterexamples -/

/-- A classifier that marks every channel as sEEG. -/
def classifyAll : List String → List String → String → List Bool :=
  fun names _ _ => names.map (fun _ => true)

/-- A classifier returning the fixed mask `[true, true, false]`. -/
def classify9 : List String → List String → String → List Bool :=
  fun _ _ _ => [true, true, false]

/-- A TRC container whose event stream starts with two idle samples. -/
def ctr0 : TrcContainer :=
  ⟨256, [("A", "uV", [1, 2])], [0, 0, 5], [0, 1, 2]⟩

/-- The recording `read_trc` produces from `ctr0` with `classifyAll`. -/
def recTrc0 : Recording :=
  ⟨256, [[1, 2]], ["A"], [0, 0, 5], [0, 1, 2]⟩

/-- A three-channel TRC container matching the spec's classifier
example. -/
def ctr9 : TrcContainer :=
  ⟨100, [("EEG1", "uV", [1]), ("EEG2", "uV", [2]), ("ECG", "mV", [3])],
   [], []⟩

/-- The recording `read_trc` produces from `ctr9` with `classify9`. -/
def recTrc9 : Recording :=
  ⟨100, [[1], [2]], ["EEG1", "EEG2"], [], []⟩

/-- A raw-data file: two rows, the last being the trigger line. -/
def c0 : RawContent := ⟨512, [0, 1], [[1, 2], [0, 7]]⟩

/-- A matrix root whose raw subdirectory holds two files, one of them
`iEEG.mat`, and whose header decodes at the first backend. -/
def root5 : MatRoot :=
  ⟨true, ["alignedData.mat"], [("a.mat", c0), ("iEEG.mat", c0)],
   .success ["A", "TRIG"] ["SEEG", "TRIGGER"], .failEarly, .error ()⟩

/-- The recording `read_pramat` produces from `root5`. -/
def rec5 : Recording := ⟨512, [[1, 2]], ["A"], [7], [1]⟩

/-- A matrix root whose raw subdirectory holds two files, neither of them
named `iEEG.mat`. -/
def root10 : MatRoot :=
  ⟨true, ["alignedData.mat"], [("a.mat", c0), ("b.mat", c0)],
   .success ["A", "TRIG"] ["SEEG", "TRIGGER"], .failEarly, .error ()⟩

/-- A path that is not a directory. -/
def rootNotDir : MatRoot :=
  ⟨false, ["alignedData.mat"], [("iEEG.mat", c0)],
   .success ["A", "TRIG"] ["SEEG", "TRIGGER"], .failEarly, .error ()⟩

/-! ### General lemmas about the embedded operations -/

theorem maskSelect_eq_idxMap {α : Type} (d : α) :
    ∀ (mask : List Bool) (xs : List α), xs.length = mask.length →
      maskSelect xs mask =
        ((List.range mask.length).filter (fun i => mask.getD i false)).map
          (fun i => xs.getD i d)
  | [], [], _ => by simp [maskSelect]
  | [], _ :: _, h => by simp at h
  | _ :: _, [], h => by simp at h
  | b :: m, x :: xs, h => by
    have hx : xs.length = m.length := by simpa using h
    have ih := maskSelect_eq_idxMap d m xs hx
    simp only [maskSelect] at ih ⊢
    cases b <;>
      simp [List.range_succ_eq_map, List.filter_cons, List.filter_map,
        List.map_map, Function.comp_def, Nat.succ_eq_add_one,
        List.getElem?_cons_succ, ih]

theorem maskSelect_count {α : Type} :
    ∀ (mask : List Bool) (xs : List α), xs.length = mask.length →
      (maskSelect xs mask).length = mask.count true
  | [], [], _ => by simp [maskSelect]
  | [], _ :: _, h => by simp at h
  | _ :: _, [], h => by simp at h
  | b :: m, x :: xs, h => by
    have hx : xs.length = m.length := by simpa using h
    have ih := maskSelect_count m xs hx
    simp only [maskSelect, List.length_map] at ih
    cases b <;>
      simp [maskSelect, List.count_cons, ih]

theorem extractTriggers_len (t : List Int) (ts : List ℚ) :
    (extractTriggers t ts).1.length = (extractTriggers t ts).2.length := by
  simp [extractTriggers]

theorem firstOnly_allEq (c : Int) (trig : List Int)
    (h : ∀ a ∈ trig, a = c) : firstOnly trig = [] := by
  unfold firstOnly
  rw [List.map_eq_nil_iff, List.filter_eq_nil_iff]
  intro i hi
  have hi' : i < trig.length - 1 := List.mem_range.mp hi
  have h1 : i < trig.length := by omega
  have h2 : i + 1 < trig.length := by omega
  have e1 : trig[i]?.getD 0 = c := by
    simp only [List.getElem?_eq_getElem h1, Option.getD_some]
    exact h _ (List.getElem_mem h1)
  have e2 : trig[i + 1]?.getD 0 = c := by
    simp only [List.getElem?_eq_getElem h2, Option.getD_some]
    exact h _ (List.getElem_mem h2)
  simp [e1, e2]

theorem extractTriggers_allEq (c : Int) (trig : List Int) (times : List ℚ)
    (h : ∀ a ∈ trig, a = c) : extractTriggers trig times = ([], []) := by
  simp [extractTriggers, firstOnly_allEq c trig h]

theorem checkAsserts_ok (cn ct a b : List String)
    (h : checkAsserts cn ct = Except.ok (a, b)) :
    a = cn ∧ b = ct ∧ cn ≠ [] ∧ ct ≠ [] ∧ cn.length = ct.length := by
  unfold checkAsserts at h
  split at h
  · simp at h
  · split at h
    · simp at h
    · split at h
      · rename_i hcn hct hlen
        obtain ⟨h1, h2⟩ := Prod.mk.inj (Except.ok.inj h)
        exact ⟨h1.symm, h2.symm, by simpa using hcn, by simpa using hct, hlen⟩
      · simp at h

theorem decodeHeader_ok (h5 s : BackendOutcome)
    (m : Except Unit (List String × List String)) (cn ct : List String)
    (h : (decodeHeader h5 s m).1 = Except.ok (cn, ct)) :
    cn ≠ [] ∧ ct ≠ [] ∧ cn.length = ct.length := by
  simp only [decodeHeader] at h
  repeat' split at h
  all_goals
    try (obtain ⟨ha, hb, h1, h2, h3⟩ := checkAsserts_ok _ _ _ _ h
         subst ha
         subst hb
         exact ⟨h1, h2, h3⟩)
  all_goals simp at h

theorem read_trc_ok (isfile : Bool)
    (classify : List String → List String → String → List Bool)
    (ctr : TrcContainer) (r : Recording)
    (h : read_trc isfile classify ctr = Except.ok r) :
    (classify (trcNames ctr) (trcUnits ctr) "uV").length =
      (trcNames ctr).length ∧
    r = ⟨ctr.sf,
      (maskSelect (List.range (trcNames ctr).length)
        (classify (trcNames ctr) (trcUnits ctr) "uV")).map
        (fun c => (ctr.sigs.getD c ("", "", [])).2.2),
      maskSelect (trcNames ctr) (classify (trcNames ctr) (trcUnits ctr) "uV"),
      ctr.eventLabels, ctr.eventTimes⟩ := by
  simp only [read_trc] at h
  split at h
  · split at h
    · split at h
      · simp at h
      · split at h
        · exact ⟨by assumption, (Except.ok.inj h).symm⟩
        · simp at h
    · simp at h
  · simp at h

theorem pramatCore_ok (root : MatRoot) (rawName : String)
    (cn ct : List String) (r : Recording)
    (h : pramatCore root rawName cn ct = Except.ok r) :
    ∃ content trigRow,
      lookupRaw root.rawDir rawName = some content ∧
      content.raw.getLast? = some trigRow ∧
      content.raw.length = (ct.map (fun t => t == "SEEG")).length ∧
      r = ⟨content.srate,
        maskSelect content.raw (ct.map (fun t => t == "SEEG")),
        maskSelect (cn.map pyUpper) (ct.map (fun t => t == "SEEG")),
        (extractTriggers (trigRow.map npRound) content.time).1,
        (extractTriggers (trigRow.map npRound) content.time).2⟩ := by
  simp only [pramatCore] at h
  split at h
  · simp at h
  · rename_i content heq
    split at h
    · simp at h
    · rename_i trigRow heq2
      split at h
      · exact ⟨content, trigRow, heq, heq2, by assumption,
          (Except.ok.inj h).symm⟩
      · simp at h

theorem read_pramat_ok (root : MatRoot) (r : Recording)
    (h : (read_pramat root).1 = Except.ok r) :
    ∃ rawName cn ct,
      (resolveRawFile (root.rawDir.map Prod.fst)).1 = Except.ok rawName ∧
      (decodeHeader root.h5Outcome root.scipyOutcome root.mat73Outcome).1 =
        Except.ok (cn, ct) ∧
      cn.length = ct.length ∧
      pramatCore root rawName cn ct = Except.ok r := by
  simp only [read_pramat] at h
  split at h
  · split at h
    · split at h
      · rename_i rawName rlog hres
        simp only [pramatAfter] at h
        split at h
        · rename_i cn ct hlog hdec
          have hdec1 : (decodeHeader root.h5Outcome root.scipyOutcome
              root.mat73Outcome).1 = Except.ok (cn, ct) := by rw [hdec]
          exact ⟨rawName, cn, ct, by rw [hres], hdec1,
            (decodeHeader_ok _ _ _ _ _ hdec1).2.2, h⟩
        · simp at h
      · simp at h
    · simp at h
  · simp at h

/-! ### Claim theorems -/

/-- C2: on trigger line `[0,0,5,5,0,0,3,3,3]` with times `[0..8]` the
trigger extraction keeps only positions whose value differs from the
previous sample (index 0 is never a candidate), drops the zero codes, and
returns events `[5,3]` with their original timestamps `[2,6]` in original
order. -/
theorem trigger_extractor_example :
    extractTriggers [0, 0, 5, 5, 0, 0, 3, 3, 3] [0, 1, 2, 3, 4, 5, 6, 7, 8] =
      ([5, 3], [2, 6]) := by decide

/-- C4: a trigger line whose values are all identical (including the
all-zero line) yields empty event and time sequences, and never raises;
in particular a nonzero code occupying the very first sample with no
subsequent change is never reported. -/
theorem trigger_extractor_constant (c : Int) (trig : List Int)
    (times : List ℚ) (h : ∀ a ∈ trig, a = c) :
    extractTriggers trig times = ([], []) :=
  extractTriggers_allEq c trig times h

/-- Witness for `trigger_extractor_constant` at the spec's example
`[7,7,7]`. -/
theorem trigger_extractor_constant_witness :
    (∀ a ∈ ([7, 7, 7] : List Int), a = 7) ∧
    extractTriggers [7, 7, 7] [0, 1, 2] = ([], []) :=
  ⟨by decide, trigger_extractor_constant 7 [7, 7, 7] [0, 1, 2] (by decide)⟩

/-- C1 counterexample: `read_trc` does not pass the event stream through
the trigger extraction; on a container whose event labels are `[0,0,5]`
it returns `trig_event = [0,0,5]`, which contains a zero code and a run
of identical consecutive codes, and differs from what the extractor
would produce. -/
theorem trc_trigger_passthrough_cx :
    read_trc true classifyAll ctr0 = Except.ok recTrc0 ∧
    recTrc0.trig_event = [0, 0, 5] ∧
    (0 : Int) ∈ recTrc0.trig_event ∧
    extractTriggers ctr0.eventLabels ctr0.eventTimes = ([5], [2]) ∧
    recTrc0.trig_event ≠ (extractTriggers ctr0.eventLabels ctr0.eventTimes).1 :=
  ⟨by decide, by decide, by decide, by decide, by decide⟩

/-- C1 amended: `read_trc` returns the container's event-label stream and
its time axis unchanged, without applying the trigger extraction of the
matrix-reader path; zero codes and runs of identical consecutive codes
therefore survive into `trig_event`. -/
theorem trc_trigger_passthrough (isfile : Bool)
    (classify : List String → List String → String → List Bool)
    (ctr : TrcContainer) (r : Recording)
    (h : read_trc isfile classify ctr = Except.ok r) :
    r.trig_event = ctr.eventLabels ∧ r.trig_time = ctr.eventTimes := by
  obtain ⟨_, rfl⟩ := read_trc_ok _ _ _ _ h
  exact ⟨rfl, rfl⟩

/-- Witness for `trc_trigger_passthrough` at `ctr0`. -/
theorem trc_trigger_passthrough_witness :
    recTrc0.trig_event = ctr0.eventLabels ∧
    recTrc0.trig_time = ctr0.eventTimes :=
  trc_trigger_passthrough true classifyAll ctr0 recTrc0 (by decide)

/-- C8 counterexample: on a missing file the vendor reader fails with the
assertion kind (Python `assert`), not the `FileNotFoundError` kind, and
on a non-directory the matrix reader fails with the assertion kind, not
the `NotADirectoryError` kind. -/
theorem missing_path_assertion_cx :
    read_trc false classifyAll ctr0 = Except.error ErrKind.assertionError ∧
    ErrKind.assertionError ≠ ErrKind.fileNotFoundError ∧
    read_pramat rootNotDir = (Except.error ErrKind.assertionError, []) ∧
    ErrKind.assertionError ≠ ErrKind.notADirectoryError :=
  ⟨rfl, by decide, rfl, by decide⟩

/-- C8 amended: when the path is not an existing file the vendor reader
fails immediately with an assertion-kind error, for every container
content; when the root is not a directory the matrix reader fails
immediately with an assertion-kind error, for every directory content —
i.e. before any container or header decoding. -/
theorem missing_path_assertion (isfile : Bool)
    (classify : List String → List String → String → List Bool)
    (ctr : TrcContainer) (root : MatRoot) :
    (isfile = false →
      read_trc isfile classify ctr = Except.error ErrKind.assertionError) ∧
    (root.isDir = false →
      read_pramat root = (Except.error ErrKind.assertionError, [])) := by
  constructor
  · intro h
    subst h
    simp [read_trc]
  · intro h
    simp [read_pramat, h]

/-- Witness for `missing_path_assertion` at concrete inputs. -/
theorem missing_path_assertion_witness :
    read_trc false classifyAll ctr9 = Except.error ErrKind.assertionError ∧
    read_pramat rootNotDir = (Except.error ErrKind.assertionError, []) :=
  ⟨(missing_path_assertion false classifyAll ctr9 rootNotDir).1 rfl,
   (missing_path_assertion false classifyAll ctr9 rootNotDir).2 rfl⟩

/-- C9: mask filtering keeps exactly the entries at mask-true positions
in their original relative order (index characterization), the number of
kept entries is the number of mask-true positions, and in `read_trc` the
returned raw row count equals the classifier mask's true count. -/
theorem mask_filter_keeps_true_positions :
    (∀ (names : List String) (mask : List Bool),
      names.length = mask.length →
        maskSelect names mask =
          ((List.range mask.length).filter (fun i => mask.getD i false)).map
            (fun i => names.getD i "") ∧
        (maskSelect names mask).length = mask.count true) ∧
    (∀ (classify : List String → List String → String → List Bool)
      (ctr : TrcContainer) (r : Recording),
      read_trc true classify ctr = Except.ok r →
        r.raw.length =
          (classify (trcNames ctr) (trcUnits ctr) "uV").count true) := by
  constructor
  · intro names mask h
    exact ⟨maskSelect_eq_idxMap "" mask names h, maskSelect_count mask names h⟩
  · intro classify ctr r h
    obtain ⟨hlen, rfl⟩ := read_trc_ok _ _ _ _ h
    simp only [List.length_map]
    exact maskSelect_count _ _ (by simpa using hlen.symm)

/-- Witness for `mask_filter_keeps_true_positions` at the spec's
classifier example `["EEG1","EEG2","ECG"]` with mask
`[true,true,false]`. -/
theorem mask_filter_keeps_true_positions_witness :
    (maskSelect ["EEG1", "EEG2", "ECG"] [true, true, false] =
        ((List.range ([true, true, false] : List Bool).length).filter
          (fun i => ([true, true, false] : List Bool).getD i false)).map
          (fun i => (["EEG1", "EEG2", "ECG"] : List String).getD i "") ∧
      (maskSelect ["EEG1", "EEG2", "ECG"] [true, true, false]).length =
        ([true, true, false] : List Bool).count true) ∧
    recTrc9.raw.length =
      (classify9 (trcNames ctr9) (trcUnits ctr9) "uV").count true :=
  ⟨mask_filter_keeps_true_positions.1 ["EEG1", "EEG2", "ECG"]
      [true, true, false] (by decide),
   mask_filter_keeps_true_positions.2 classify9 ctr9 recTrc9 (by decide)⟩

/-- C7: whenever either reader returns successfully, the returned
recording has as many raw rows as channel names, and as many trigger
events as trigger times (the TRC container is assumed well formed: its
event stream pairs each label with a time). -/
theorem recording_length_invariants (isfile : Bool)
    (classify : List String → List String → String → List Bool)
    (ctr : TrcContainer) (root : MatRoot) (r1 r2 : Recording)
    (hev : ctr.eventLabels.length = ctr.eventTimes.length) :
    (read_trc isfile classify ctr = Except.ok r1 →
      r1.raw.length = r1.seeg_chan.length ∧
      r1.trig_event.length = r1.trig_time.length) ∧
    ((read_pramat root).1 = Except.ok r2 →
      r2.raw.length = r2.seeg_chan.length ∧
      r2.trig_event.length = r2.trig_time.length) := by
  constructor
  · intro h
    obtain ⟨hlen, rfl⟩ := read_trc_ok _ _ _ _ h
    refine ⟨?_, hev⟩
    simp only [List.length_map]
    rw [maskSelect_count _ _ (by simpa using hlen.symm),
      maskSelect_count _ _ hlen.symm]
  · intro h
    obtain ⟨rawName, cn, ct, hres, hdec, hlen, hcore⟩ := read_pramat_ok _ _ h
    obtain ⟨content, trigRow, hlook, hlast, hraw, rfl⟩ :=
      pramatCore_ok _ _ _ _ _ hcore
    refine ⟨?_, extractTriggers_len _ _⟩
    rw [maskSelect_count _ _ hraw, maskSelect_count _ _ (by simp [hlen])]

/-- Witness for `recording_length_invariants` at `ctr0` (vendor path) and
`root5` (matrix path). -/
theorem recording_length_invariants_witness :
    (recTrc0.raw.length = recTrc0.seeg_chan.length ∧
      recTrc0.trig_event.length = recTrc0.trig_time.length) ∧
    (rec5.raw.length = rec5.seeg_chan.length ∧
      rec5.trig_event.length = rec5.trig_time.length) :=
  ⟨(recording_length_invariants true classifyAll ctr0 root5 recTrc0 rec5
      (by decide)).1 (by decide),
   (recording_length_invariants true classifyAll ctr0 root5 recTrc0 rec5
      (by decide)).2 (by decide)⟩

/-- C6: in the matrix reader, channel names from the decoded header are
uppercased, sEEG membership is exact string equality of the type label
with the sentinel 'SEEG', and the returned channel names and raw rows
are exactly the entries at mask-true positions, in order. -/
theorem pramat_seeg_label_classification (root : MatRoot) (rawName : String)
    (cn ct : List String) (content : RawContent) (r : Recording)
    (hlen : cn.length = ct.length)
    (hlook : lookupRaw root.rawDir rawName = some content)
    (h : pramatCore root rawName cn ct = Except.ok r) :
    r.seeg_chan =
      ((List.range (ct.map (fun t => t == "SEEG")).length).filter
        (fun i => (ct.map (fun t => t == "SEEG")).getD i false)).map
        (fun i => (cn.map pyUpper).getD i "") ∧
    r.raw =
      ((List.range (ct.map (fun t => t == "SEEG")).length).filter
        (fun i => (ct.map (fun t => t == "SEEG")).getD i false)).map
        (fun i => content.raw.getD i []) := by
  obtain ⟨content2, trigRow, hlook2, hlast, hraw, rfl⟩ :=
    pramatCore_ok _ _ _ _ _ h
  rw [hlook] at hlook2
  obtain rfl := Option.some.inj hlook2
  constructor
  · exact maskSelect_eq_idxMap "" _ _ (by simp [hlen])
  · exact maskSelect_eq_idxMap [] _ _ hraw

/-- Witness for `pramat_seeg_label_classification` at `root5`. -/
theorem pramat_seeg_label_classification_witness :
    rec5.seeg_chan =
      ((List.range ((["SEEG", "TRIGGER"] : List String).map
          (fun t => t == "SEEG")).length).filter
        (fun i => ((["SEEG", "TRIGGER"] : List String).map
          (fun t => t == "SEEG")).getD i false)).map
        (fun i => ((["A", "TRIG"] : List String).map pyUpper).getD i "") ∧
    rec5.raw =
      ((List.range ((["SEEG", "TRIGGER"] : List String).map
          (fun t => t == "SEEG")).length).filter
        (fun i => ((["SEEG", "TRIGGER"] : List String).map
          (fun t => t == "SEEG")).getD i false)).map
        (fun i => c0.raw.getD i []) :=
  pramat_seeg_label_classification root5 "iEEG.mat" ["A", "TRIG"]
    ["SEEG", "TRIGGER"] c0 rec5 (by decide) (by decide) (by decide)

/-- C3 counterexample: when the HDF5 backend raises after assigning the
name list (names `["A"]` read, types not yet), the failure is logged but
the scipy backend is NOT tried — the chain ends in an assertion error
even though scipy would have produced the non-empty pair
`(["B"], ["SEEG"])`. -/
theorem header_chain_guard_cx :
    (decodeHeader (.failMid ["A"]) (.success ["B"] ["SEEG"])
      (Except.ok ([], []))).1 = Except.error ErrKind.assertionError ∧
    (decodeHeader (.failMid ["A"]) (.success ["B"] ["SEEG"])
      (Except.ok ([], []))).1 ≠ Except.ok (["B"], ["SEEG"]) ∧
    (decodeHeader (.failMid ["A"]) (.success ["B"] ["SEEG"])
      (Except.ok ([], []))).2 = [hdf5FailMsg] :=
  ⟨by decide, by decide, by decide⟩

/-- C3 amended: a caught backend failure is logged, but the next backend
is consulted only while BOTH the name and the type list are still empty:
once the state after the HDF5 attempt is not `([], [])` the result no
longer depends on the later backends; every successful result has
non-empty name and type lists of equal length; and if the whole chain
leaves a name or type list empty the reader fails with an assertion-kind
integrity error. -/
theorem header_chain_guard (h5 s s2 : BackendOutcome)
    (m m2 : Except Unit (List String × List String)) (cn ct a b : List String) :
    (stepBackend ([], []) h5 ≠ ([], []) →
      decodeHeader h5 s m = decodeHeader h5 s2 m2) ∧
    ((decodeHeader h5 s m).1 = Except.ok (cn, ct) →
      cn ≠ [] ∧ ct ≠ [] ∧ cn.length = ct.length) ∧
    (h5.failed = true → hdf5FailMsg ∈ (decodeHeader h5 s m).2) ∧
    (stepBackend ([], []) h5 = ([], []) → stepBackend ([], []) s = ([], []) →
      m = Except.ok (a, b) → a = [] ∨ b = [] →
      (decodeHeader h5 s m).1 = Except.error ErrKind.assertionError) := by
  refine ⟨?_, decodeHeader_ok h5 s m cn ct, ?_, ?_⟩
  · intro hne
    have hguard :
        ¬((stepBackend ([], []) h5).1.isEmpty &&
          (stepBackend ([], []) h5).2.isEmpty) = true := by
      intro hc
      rcases hst : stepBackend ([], []) h5 with ⟨u, v⟩
      rw [hst] at hc hne
      simp only [Bool.and_eq_true, List.isEmpty_iff] at hc
      exact hne (by rw [hc.1, hc.2])
    simp only [decodeHeader]
    rw [if_neg hguard, if_neg hguard]
  · intro hf
    simp only [decodeHeader, hf, if_true]
    repeat' split
    all_goals simp
  · intro h1 h2 hm hab
    rcases hab with rfl | rfl
    · simp [decodeHeader, h1, h2, hm, checkAsserts]
    · simp [decodeHeader, h1, h2, hm, checkAsserts]

/-- Witness for `header_chain_guard`: each conjunct applied at a concrete
instantiation that satisfies its hypotheses. -/
theorem header_chain_guard_witness :
    decodeHeader (.success ["A"] ["T"]) .failEarly (Except.error ()) =
      decodeHeader (.success ["A"] ["T"]) (.failMid ["Z"])
        (Except.ok ([], [])) ∧
    ((["A"] : List String) ≠ [] ∧ (["T"] : List String) ≠ [] ∧
      (["A"] : List String).length = (["T"] : List String).length) ∧
    hdf5FailMsg ∈ (decodeHeader (.failMid ["A"]) .failEarly
      (Except.error ())).2 ∧
    (decodeHeader .failEarly .failEarly (Except.ok ([], []))).1 =
      Except.error ErrKind.assertionError :=
  ⟨(header_chain_guard (.success ["A"] ["T"]) .failEarly (.failMid ["Z"])
      (Except.error ()) (Except.ok ([], [])) [] [] [] []).1 (by decide),
   (header_chain_guard (.success ["A"] ["T"]) .failEarly .failEarly
      (Except.error ()) (Except.error ()) ["A"] ["T"] [] []).2.1 (by decide),
   (header_chain_guard (.failMid ["A"]) .failEarly .failEarly
      (Except.error ()) (Except.error ()) [] [] [] []).2.2.1 (by decide),
   (header_chain_guard .failEarly .failEarly .failEarly
      (Except.ok ([], [])) (Except.error ()) [] [] [] []).2.2.2 rfl rfl rfl
      (Or.inl rfl)⟩

/-- C5 counterexample: with raw listing `["a.mat", "iEEG.mat"]` the
reader narrows to `iEEG.mat` and succeeds, but the narrowing is reported
through an error-level log record, not a warning-level one — the run's
only log record has level `error`. -/
theorem multi_file_narrowing_cx :
    read_pramat root5 = (Except.ok rec5, [multiFileMsg]) ∧
    multiFileMsg.level = LogLevel.error ∧
    LogLevel.error ≠ LogLevel.warning :=
  ⟨by decide, rfl, by decide⟩

/-- C5 amended: with more than one raw candidate file the reader narrows
to the literal name `iEEG.mat` and logs an error-level record, then
proceeds with that file; with exactly one file that file is used; with
zero files an assertion-kind error is raised. -/
theorem multi_file_narrowing (files : List String) (x : String)
    (root : MatRoot) :
    (files.length > 1 →
      resolveRawFile files = (Except.ok "iEEG.mat", [multiFileMsg])) ∧
    resolveRawFile [x] = (Except.ok x, []) ∧
    resolveRawFile [] = (Except.error ErrKind.assertionError, []) ∧
    (root.isDir = true → root.filesHead.length = 1 →
      (root.rawDir.map Prod.fst).length > 1 →
      read_pramat root = pramatAfter root "iEEG.mat" [multiFileMsg]) := by
  refine ⟨?_, ?_, ?_, ?_⟩
  · intro hgt
    simp [resolveRawFile, hgt]
  · simp [resolveRawFile]
  · simp [resolveRawFile]
  · intro hd hh hgt
    have hgt2 : 1 < root.rawDir.length := by simpa using hgt
    simp [read_pramat, hd, hh, resolveRawFile, hgt2]

/-- Witness for `multi_file_narrowing` at the spec's example listing and
at `root5`. -/
theorem multi_file_narrowing_witness :
    resolveRawFile ["a.mat", "iEEG.mat"] =
      (Except.ok "iEEG.mat", [multiFileMsg]) ∧
    resolveRawFile ["only.mat"] = (Except.ok "only.mat", []) ∧
    resolveRawFile [] = (Except.error ErrKind.assertionError, []) ∧
    read_pramat root5 = pramatAfter root5 "iEEG.mat" [multiFileMsg] :=
  ⟨(multi_file_narrowing ["a.mat", "iEEG.mat"] "only.mat" root5).1
      (by decide),
   (multi_file_narrowing ["a.mat", "iEEG.mat"] "only.mat" root5).2.1,
   (multi_file_narrowing ["a.mat", "iEEG.mat"] "only.mat" root5).2.2.1,
   (multi_file_narrowing ["a.mat", "iEEG.mat"] "only.mat" root5).2.2.2
      rfl rfl (by decide)⟩

/-- C10: with more than one raw candidate the narrowing substitutes the
literal name `iEEG.mat` without checking that such a file was listed; if
no file of that name exists and the header decodes, the failure surfaces
at the raw-file open (OSError kind), not at the narrowing step. -/
theorem narrowing_unconditional_open (root : MatRoot) (cn ct : List String)
    (hd : root.isDir = true) (hh : root.filesHead.length = 1)
    (hgt : (root.rawDir.map Prod.fst).length > 1)
    (hmiss : lookupRaw root.rawDir "iEEG.mat" = none)
    (hdec : (decodeHeader root.h5Outcome root.scipyOutcome
      root.mat73Outcome).1 = Except.ok (cn, ct)) :
    (resolveRawFile (root.rawDir.map Prod.fst)).1 = Except.ok "iEEG.mat" ∧
    (read_pramat root).1 = Except.error ErrKind.oserror := by
  have hgt2 : 1 < root.rawDir.length := by simpa using hgt
  constructor
  · simp [resolveRawFile, hgt2]
  · have hstep : read_pramat root = pramatAfter root "iEEG.mat" [multiFileMsg] := by
      simp [read_pramat, hd, hh, resolveRawFile, hgt2]
    rcases hdh : decodeHeader root.h5Outcome root.scipyOutcome
      root.mat73Outcome with ⟨p1, p2⟩
    rw [hdh] at hdec
    simp only at hdec
    subst hdec
    rw [hstep]
    simp [pramatAfter, hdh, pramatCore, hmiss]

/-- Witness for `narrowing_unconditional_open` at `root10`, whose raw
subdirectory lists `a.mat` and `b.mat` only. -/
theorem narrowing_unconditional_open_witness :
    (resolveRawFile (root10.rawDir.map Prod.fst)).1 = Except.ok "iEEG.mat" ∧
    (read_pramat root10).1 = Except.error ErrKind.oserror :=
  narrowing_unconditional_open root10 ["A", "TRIG"] ["SEEG", "TRIGGER"]
    rfl rfl (by decide) (by decide) (by decide)
